import Mathlib

/-!
Verification development for the BigCommerce webhook integration backend.

The Python source under `backend/app` is shallowly embedded here:

* order payloads and webhook envelopes are JSON-like values (`JVal`);
* dictionary access mirrors Python `dict.get`, including the fact that
  calling `.get` on a non-dict raises (`Except.error` models a raised
  exception);
* Python truthiness, `str()`, `.lower()`, `.strip()` and substring tests
  are given explicit executable models;
* the tracking-code extraction of `app/utils/attribution.py`, the HMAC
  verification of `app/middleware/hmac_verify.py`, the conversion service
  of `app/services/conversion_service.py` and the webhook endpoint of
  `app/routes/webhooks.py` are translated function by function;
* external collaborators (the BigCommerce REST client, the Affilync API
  client, token decryption, the product-sync service) are oracle fields of
  an `Env` record, and every invocation of one of them is recorded in an
  explicit call trace so that frame properties ("no outbound call") are
  statable.
-/

namespace Affilync

/-- JSON-like value, the model of the dynamic Python values flowing through
the webhook pipeline.  Numbers are modelled as rationals (the payloads of
interest carry ints and decimals; binary floating point is not modelled). -/
inductive JVal where
  | null
  | bool (b : Bool)
  | num (q : ℚ)
  | str (s : String)
  | arr (xs : List JVal)
  | obj (fs : List (String × JVal))

instance : Inhabited JVal := ⟨JVal.null⟩

/-- Decidable equality for `Except` results (used to evaluate the model at
concrete inputs). -/
instance {α β : Type} [DecidableEq α] [DecidableEq β] :
    DecidableEq (Except α β) := fun a b =>
  match a, b with
  | .ok x, .ok y =>
      if h : x = y then .isTrue (by rw [h]) else .isFalse (by simp [h])
  | .error x, .error y =>
      if h : x = y then .isTrue (by rw [h]) else .isFalse (by simp [h])
  | .ok _, .error _ => .isFalse (by simp)
  | .error _, .ok _ => .isFalse (by simp)

/-- Python truthiness (`bool(v)`) for the modelled values. -/
def truthy : JVal → Bool
  | .null => false
  | .bool b => b
  | .num q => q ≠ 0
  | .str s => s ≠ ""
  | .arr xs => !xs.isEmpty
  | .obj fs => !fs.isEmpty

/-- Look up a key in an object's field list (first binding wins). -/
def lookupField (fs : List (String × JVal)) (k : String) : Option JVal :=
  match fs with
  | [] => none
  | (k', v) :: rest => if k' = k then some v else lookupField rest k

/-- Python `d.get(k)`: `none` when the key is missing, raises
(`Except.error`) when the receiver is not a dict. -/
def pyGetOpt (v : JVal) (k : String) : Except String (Option JVal) :=
  match v with
  | .obj fs => .ok (lookupField fs k)
  | _ => .error "AttributeError: get"

/-- Python `d.get(k, default)`: the default is used only when the key is
missing; a key present with value `null` yields `null`. -/
def pyGetD (v : JVal) (k : String) (d : JVal) : Except String JVal :=
  (pyGetOpt v k).map (fun o => o.getD d)

/-- Python `str(v)` for the modelled values.  Containers are rendered in a
JSON-ish way (the code under verification never relies on the exact
container rendering). -/
def pyStr : JVal → String
  | .null => "None"
  | .bool b => if b then "True" else "False"
  | .num q => if q.den = 1 then toString q.num else toString q
  | .str s => s
  | .arr _ => "[...]"
  | .obj _ => "\x7b...\x7d"

/-- Python `s.lower()` (ASCII case folding; the probed names are ASCII). -/
def pyLower (s : String) : String :=
  ⟨s.data.map Char.toLower⟩

/-- Python `s.strip()`: drop whitespace from both ends. -/
def pyStrip (s : String) : String :=
  ⟨(((s.data.dropWhile Char.isWhitespace).reverse.dropWhile
      Char.isWhitespace).reverse)⟩

/-- Does `needle` occur as a contiguous substring of `hay`?  Model of the
Python `needle in hay` test on strings. -/
def charsContain (needle : List Char) : List Char → Bool
  | [] => needle.isEmpty
  | c :: rest => needle.isPrefixOf (c :: rest) || charsContain needle rest

/-- Python `needle in hay` on strings. -/
def strContains (hay needle : String) : Bool :=
  charsContain needle.data hay.data

/-- Python iteration over a value (`for x in v`): lists yield elements,
strings yield one-character strings, dicts yield their keys; other values
raise `TypeError`. -/
def pyIter : JVal → Except String (List JVal)
  | .arr xs => .ok xs
  | .str s => .ok (s.data.map (fun c => JVal.str ⟨[c]⟩))
  | .obj fs => .ok (fs.map (fun f => JVal.str f.1))
  | _ => .error "TypeError: not iterable"

/-- Python `s.lower()` on a value that must be a string (raises
`AttributeError` otherwise). -/
def pyLowerVal : JVal → Except String String
  | .str s => .ok (pyLower s)
  | _ => .error "AttributeError: lower"

/-! ## Tracking-code regular expressions (`app/utils/attribution.py`)

The four patterns of `TRACKING_PATTERNS` are

* `aff[_-]?code[=:]?\s*([A-Za-z0-9_-]+)`
* `ref[=:]?\s*([A-Za-z0-9_-]+)`
* `tracking[_-]?code[=:]?\s*([A-Za-z0-9_-]+)`
* `utm_source[=:]?\s*([A-Za-z0-9_-]+)`

searched with `re.search(pattern, notes, re.IGNORECASE)`.  Each pattern is
a sequence of case-insensitive literals, optional single-character classes
and a greedy `\s*`, followed by one capture group `([A-Za-z0-9_-]+)`.  The
matcher below implements exactly this pattern language, with backtracking
on the optional classes (the `\s*` can be taken greedily without
backtracking because whitespace is disjoint from the characters that may
follow it in all four patterns). -/

/-- One token of a tracking pattern (everything before the capture group). -/
inductive RTok where
  | lit (c : Char)
  | opt (cs : List Char)
  | wsStar

/-- Is `c` in the capture class `[A-Za-z0-9_-]`? -/
def isWordChar (c : Char) : Bool :=
  (('A' ≤ c && c ≤ 'Z') || ('a' ≤ c && c ≤ 'z') ||
   ('0' ≤ c && c ≤ '9') || c = '_' || c = '-')

/-- Match a token list at the head of `s`, returning the rest of the input
on success; optional classes backtrack (greedy first). -/
def matchToks : List RTok → List Char → Option (List Char)
  | [], s => some s
  | .lit _ :: _, [] => none
  | .lit c :: ts, a :: s =>
      if a.toLower = c.toLower then matchToks ts s else none
  | .opt _ :: ts, [] => matchToks ts []
  | .opt cs :: ts, a :: s =>
      if cs.contains a then
        match matchToks ts s with
        | some r => some r
        | none => matchToks ts (a :: s)
      else matchToks ts (a :: s)
  | .wsStar :: ts, s =>
      matchToks ts (s.dropWhile Char.isWhitespace)

/-- Try to match `toks` followed by the capture group `([A-Za-z0-9_-]+)` at
the head of the input; return the captured characters. -/
def matchAt (toks : List RTok) (s : List Char) : Option (List Char) :=
  match matchToks toks s with
  | none => none
  | some rest =>
      let cap := rest.takeWhile isWordChar
      if cap.isEmpty then none else some cap

/-- `re.search`: scan left-to-right for the first position where the
pattern matches; the capture of the leftmost match wins. -/
def reSearch (toks : List RTok) : List Char → Option (List Char)
  | [] =>
      match matchAt toks [] with
      | some cap => some cap
      | none => none
  | c :: rest =>
      match matchAt toks (c :: rest) with
      | some cap => some cap
      | none => reSearch toks rest

/-- Literal tokens for an ASCII string. -/
def lits (s : String) : List RTok :=
  s.data.map RTok.lit

/-- The token lists of `TRACKING_PATTERNS`, in source order. -/
def TRACKING_PATTERNS : List (List RTok) :=
  [ lits "aff" ++ [RTok.opt ['_', '-']] ++ lits "code" ++
      [RTok.opt ['=', ':'], RTok.wsStar]
  , lits "ref" ++ [RTok.opt ['=', ':'], RTok.wsStar]
  , lits "tracking" ++ [RTok.opt ['_', '-']] ++ lits "code" ++
      [RTok.opt ['=', ':'], RTok.wsStar]
  , lits "utm_source" ++ [RTok.opt ['=', ':'], RTok.wsStar] ]

/-! ## Tracking-code extraction (`app/utils/attribution.py`) -/

/-- `_extract_from_custom_fields` inner loop over the field list. -/
def customFieldsLoop (keys : List String) :
    List JVal → Except String (Option String)
  | [] => .ok none
  | field :: rest => do
      let nameV ← pyGetD field "name" (.str "")
      let field_name ← pyLowerVal nameV
      if keys.any (fun key => strContains field_name key) then
        let value ← pyGetOpt field "value"
        let v := value.getD .null
        if truthy v then
          pure (some (pyStrip (pyStr v)))
        else
          customFieldsLoop keys rest
      else
        customFieldsLoop keys rest

/-- `_extract_from_custom_fields`: first custom field whose lower-cased
name contains one of `tracking`, `affiliate`, `ref`, `aff_code` and whose
value is truthy yields its stringified, stripped value. -/
def _extract_from_custom_fields (order_data : JVal) :
    Except String (Option String) := do
  let cf ← pyGetD order_data "custom_fields" (.arr [])
  let fields ← pyIter cf
  customFieldsLoop ["tracking", "affiliate", "ref", "aff_code"] fields

/-- `_extract_from_notes` pattern loop: first pattern that matches wins. -/
def notesLoop (s : List Char) : List (List RTok) → Option String
  | [] => none
  | toks :: rest =>
      match reSearch toks s with
      | some cap => some (pyStrip ⟨cap⟩)
      | none => notesLoop s rest

/-- `_extract_from_notes`: falsy notes yield `none`; non-string truthy
notes raise (`re.search` on a non-string raises `TypeError`). -/
def _extract_from_notes (notes : JVal) : Except String (Option String) :=
  if !truthy notes then .ok none
  else match notes with
    | .str s => .ok (notesLoop s.data TRACKING_PATTERNS)
    | _ => .error "TypeError: expected string or bytes-like object"

/-- `_extract_from_metadata` key loop: note that unlike the custom-field
and form-field probes, a present key is returned after `str(...)` with no
truthiness check on the value. -/
def metadataLoop (fs : List (String × JVal)) :
    List String → Option String
  | [] => none
  | key :: rest =>
      match lookupField fs key with
      | some v => some (pyStrip (pyStr v))
      | none => metadataLoop fs rest

/-- `_extract_from_metadata`: a non-dict metadata value is skipped
(`isinstance(metadata, dict)` guard). -/
def _extract_from_metadata (order_data : JVal) :
    Except String (Option String) := do
  let metadata ← pyGetD order_data "metadata" (.obj [])
  match metadata with
  | .obj fs =>
      pure (metadataLoop fs ["tracking_code", "affiliate_code", "ref", "aff_code"])
  | _ => pure none

/-- `_extract_from_form_fields`: same loop as the custom-field probe but
with the keyword list `["tracking", "affiliate", "ref"]` (the source does
not include `"aff_code"` here). -/
def _extract_from_form_fields (order_data : JVal) :
    Except String (Option String) := do
  let ff ← pyGetD order_data "form_fields" (.arr [])
  let fields ← pyIter ff
  customFieldsLoop ["tracking", "affiliate", "ref"] fields

/-- Percent-decode plus `+`-to-space, byte-wise (model of `urllib`'s
unquoting; the URLs of interest are ASCII). -/
def hexDigitVal (c : Char) : Option Nat :=
  if '0' ≤ c ∧ c ≤ '9' then some (c.toNat - '0'.toNat)
  else if 'a' ≤ c ∧ c ≤ 'f' then some (c.toNat - 'a'.toNat + 10)
  else if 'A' ≤ c ∧ c ≤ 'F' then some (c.toNat - 'A'.toNat + 10)
  else none

def percentDecode : List Char → List Char
  | [] => []
  | '+' :: rest => ' ' :: percentDecode rest
  | '%' :: h :: l :: rest =>
      match hexDigitVal h, hexDigitVal l with
      | some hv, some lv => Char.ofNat (hv * 16 + lv) :: percentDecode rest
      | _, _ => '%' :: percentDecode (h :: l :: rest)
  | c :: rest => c :: percentDecode rest

/-- The query component of a URL: the part after the first `?`, cut at the
first `#` (model of `urlparse(url).query`). -/
def urlQuery (url : String) : String :=
  match url.splitOn "?" with
  | [] => ""
  | [_] => ""
  | _ :: rest =>
      ((String.intercalate "?" rest).splitOn "#").headD ""

/-- `parse_qs`: split the query on `&`, keep `k=v` pairs with a non-empty
value (blank values are dropped by default), percent-decode both sides. -/
def parseQs (query : String) : List (String × String) :=
  (query.splitOn "&").filterMap (fun part =>
    match part.splitOn "=" with
    | [] => none
    | [_] => none
    | k :: vs =>
        let v := String.intercalate "=" vs
        if v = "" then none
        else some (⟨percentDecode k.data⟩, ⟨percentDecode v.data⟩))

/-- First value bound to `param` in the parsed query. -/
def qsLookup (params : List (String × String)) (param : String) :
    Option String :=
  match params with
  | [] => none
  | (k, v) :: rest => if k = param then some v else qsLookup rest param

/-- `_extract_from_url` parameter loop. -/
def urlParamLoop (params : List (String × String)) :
    List String → Option String
  | [] => none
  | p :: rest =>
      match qsLookup params p with
      | some v => some (pyStrip v)
      | none => urlParamLoop params rest

/-- `_extract_from_url`: probes the query parameters `ref`, `aff`,
`tracking`, `affiliate`, `utm_source`, `via` in that order.  Any parsing
exception is caught and yields `none` (the source wraps the body in
`try/except`), so a non-string URL yields `none` rather than raising. -/
def _extract_from_url (url : JVal) : Option String :=
  if !truthy url then none
  else match url with
    | .str s =>
        urlParamLoop (parseQs (urlQuery s))
          ["ref", "aff", "tracking", "affiliate", "utm_source", "via"]
    | _ => none

/-- Truthiness of an optional string, as tested by `if tracking_code:`
after each probe (a probe may return an empty string, which is falsy). -/
def optTruthy (o : Option String) : Bool :=
  o.getD "" ≠ ""

/-- `extract_tracking_code`: probes, in strict priority order, custom
fields, staff notes, customer message, metadata, form fields and the
external-source URL, stopping at the first probe whose result is truthy;
returns `none` when no probe yields a truthy value. -/
def extract_tracking_code (order_data : JVal) :
    Except String (Option String) := do
  let tc1 ← _extract_from_custom_fields order_data
  if optTruthy tc1 then pure tc1 else
  let staff ← pyGetD order_data "staff_notes" (.str "")
  let tc2 ← _extract_from_notes staff
  if optTruthy tc2 then pure tc2 else
  let msg ← pyGetD order_data "customer_message" (.str "")
  let tc3 ← _extract_from_notes msg
  if optTruthy tc3 then pure tc3 else
  let tc4 ← _extract_from_metadata order_data
  if optTruthy tc4 then pure tc4 else
  let tc5 ← _extract_from_form_fields order_data
  if optTruthy tc5 then pure tc5 else do
  let ext ← pyGetOpt order_data "external_source"
  let external_source := ext.getD .null
  if truthy external_source then
    match _extract_from_url external_source with
    | some tc6 => if optTruthy (some tc6) then pure (some tc6) else pure none
    | none => pure none
  else
    pure none

/-! ## SHA-256 and HMAC (models of `hashlib.sha256` / `hmac.new`)

Standard FIPS 180-4 SHA-256 over byte lists, with 32-bit words as `Nat`
reduced mod `2^32`. -/

namespace SHA256

def M32 : Nat := 4294967296

def rotr (x n : Nat) : Nat :=
  (x % 2 ^ n) * 2 ^ (32 - n) + x / 2 ^ n

def shr (x n : Nat) : Nat := x / 2 ^ n

def bnot32 (x : Nat) : Nat := Nat.xor x (M32 - 1)

def ssig0 (x : Nat) : Nat := Nat.xor (rotr x 7) (Nat.xor (rotr x 18) (shr x 3))
def ssig1 (x : Nat) : Nat := Nat.xor (rotr x 17) (Nat.xor (rotr x 19) (shr x 10))
def bsig0 (x : Nat) : Nat := Nat.xor (rotr x 2) (Nat.xor (rotr x 13) (rotr x 22))
def bsig1 (x : Nat) : Nat := Nat.xor (rotr x 6) (Nat.xor (rotr x 11) (rotr x 25))
def ch (x y z : Nat) : Nat := Nat.xor (Nat.land x y) (Nat.land (bnot32 x) z)
def maj (x y z : Nat) : Nat :=
  Nat.xor (Nat.land x y) (Nat.xor (Nat.land x z) (Nat.land y z))

def K : List Nat :=
  [1116352408, 1899447441, 3049323471, 3921009573, 961987163,
   1508970993, 2453635748, 2870763221, 3624381080, 310598401,
   607225278, 1426881987, 1925078388, 2162078206, 2614888103,
   3248222580, 3835390401, 4022224774, 264347078, 604807628,
   770255983, 1249150122, 1555081692, 1996064986, 2554220882,
   2821834349, 2952996808, 3210313671, 3336571891, 3584528711,
   113926993, 338241895, 666307205, 773529912, 1294757372,
   1396182291, 1695183700, 1986661051, 2177026350, 2456956037,
   2730485921, 2820302411, 3259730800, 3345764771, 3516065817,
   3600352804, 4094571909, 275423344, 430227734, 506948616,
   659060556, 883997877, 958139571, 1322822218, 1537002063,
   1747873779, 1955562222, 2024104815, 2227730452, 2361852424,
   2428436474, 2756734187, 3204031479, 3329325298]

def H0 : List Nat :=
  [1779033703, 3144134277, 1013904242, 2773480762,
   1359893119, 2600822924, 528734635, 1541459225]

/-- Big-endian byte encoding of `n` in `k` bytes. -/
def toBE (n k : Nat) : List Nat :=
  (List.range k).map (fun i => n / 2 ^ (8 * (k - 1 - i)) % 256)

/-- Pad a message to a multiple of 64 bytes (FIPS 180-4 §5.1.1). -/
def padMessage (msg : List Nat) : List Nat :=
  let L := msg.length
  let z := (120 - (L + 1) % 64) % 64
  msg ++ [0x80] ++ List.replicate z 0 ++ toBE (8 * L) 8

/-- Group bytes into big-endian 32-bit words. -/
def toWords : List Nat → List Nat
  | b0 :: b1 :: b2 :: b3 :: rest =>
      (((b0 * 256 + b1) * 256 + b2) * 256 + b3) :: toWords rest
  | _ => []

/-- Split a word list into 16-word blocks (a padded message is always a
whole number of blocks). -/
def chunk16 : List Nat → List (List Nat)
  | [] => []
  | w0 :: w1 :: w2 :: w3 :: w4 :: w5 :: w6 :: w7 ::
    w8 :: w9 :: w10 :: w11 :: w12 :: w13 :: w14 :: w15 :: rest =>
      [w0, w1, w2, w3, w4, w5, w6, w7,
       w8, w9, w10, w11, w12, w13, w14, w15] :: chunk16 rest
  | l => [l]

/-- Extend a 16-word block by `n` schedule words (§6.2.2 step 1). -/
def extendW (w : List Nat) : Nat → List Nat
  | 0 => w
  | n + 1 =>
      let i := w.length
      let nw := (ssig1 (w.getD (i - 2) 0) + w.getD (i - 7) 0 +
                 ssig0 (w.getD (i - 15) 0) + w.getD (i - 16) 0) % M32
      extendW (w ++ [nw]) n

/-- The eight working registers. -/
structure Regs where
  a : Nat
  b : Nat
  c : Nat
  d : Nat
  e : Nat
  f : Nat
  g : Nat
  h : Nat

def round (r : Regs) (k w : Nat) : Regs :=
  let t1 := (r.h + bsig1 r.e + ch r.e r.f r.g + k + w) % M32
  let t2 := (bsig0 r.a + maj r.a r.b r.c) % M32
  ⟨(t1 + t2) % M32, r.a, r.b, r.c, (r.d + t1) % M32, r.e, r.f, r.g⟩

def compressBlock (hs : List Nat) (block : List Nat) : List Nat :=
  let w := extendW block 48
  let i : Regs := ⟨hs.getD 0 0, hs.getD 1 0, hs.getD 2 0, hs.getD 3 0,
                   hs.getD 4 0, hs.getD 5 0, hs.getD 6 0, hs.getD 7 0⟩
  let r := (K.zip w).foldl (fun r kw => round r kw.1 kw.2) i
  [(hs.getD 0 0 + r.a) % M32, (hs.getD 1 0 + r.b) % M32,
   (hs.getD 2 0 + r.c) % M32, (hs.getD 3 0 + r.d) % M32,
   (hs.getD 4 0 + r.e) % M32, (hs.getD 5 0 + r.f) % M32,
   (hs.getD 6 0 + r.g) % M32, (hs.getD 7 0 + r.h) % M32]

/-- SHA-256 digest (32 bytes) of a byte list. -/
def sha256Bytes (msg : List Nat) : List Nat :=
  let hs := (chunk16 (toWords (padMessage msg))).foldl compressBlock H0
  (hs.map (fun w => toBE w 4)).flatten

end SHA256

/-- Lower-case hex digit. -/
def hexDigitChar (n : Nat) : Char :=
  if n < 10 then Char.ofNat ('0'.toNat + n) else Char.ofNat ('a'.toNat + n - 10)

/-- Lower-case hex encoding of a byte list (`.hexdigest()`). -/
def bytesToHex (bs : List Nat) : String :=
  ⟨(bs.map (fun b => [hexDigitChar (b / 16 % 16), hexDigitChar (b % 16)])).flatten⟩

/-- UTF-8 bytes of a character (`str.encode()`). -/
def utf8Bytes (c : Char) : List Nat :=
  let n := c.toNat
  if n < 0x80 then [n]
  else if n < 0x800 then [0xC0 + n / 64, 0x80 + n % 64]
  else if n < 0x10000 then
    [0xE0 + n / 4096, 0x80 + n / 64 % 64, 0x80 + n % 64]
  else
    [0xF0 + n / 262144, 0x80 + n / 4096 % 64, 0x80 + n / 64 % 64, 0x80 + n % 64]

/-- UTF-8 bytes of a string. -/
def strBytes (s : String) : List Nat :=
  (s.data.map utf8Bytes).flatten

/-- HMAC-SHA256 (RFC 2104) of `msg` under `key`, as raw bytes. -/
def hmacSha256 (key msg : List Nat) : List Nat :=
  let k0 := if key.length > 64 then SHA256.sha256Bytes key else key
  let kp := k0 ++ List.replicate (64 - k0.length) 0
  let inner := SHA256.sha256Bytes (kp.map (Nat.xor · 0x36) ++ msg)
  SHA256.sha256Bytes (kp.map (Nat.xor · 0x5c) ++ inner)

/-- `hmac.new(secret.encode(), payload, hashlib.sha256).hexdigest()`. -/
def hmacSha256Hex (secret : String) (payload : List Nat) : String :=
  bytesToHex (hmacSha256 (strBytes secret) payload)

/-- `verify_webhook_hmac` (`app/middleware/hmac_verify.py`): an absent or
empty signature is rejected without computing anything; otherwise the
presented signature is compared, lower-cased, against the lower-cased hex
HMAC-SHA256 digest of the raw payload under the configured secret
(`hmac.compare_digest`, which is functionally string equality).  The
configured `settings.bigcommerce_client_secret` is the `secret`
parameter; a `none` signature models passing Python `None`. -/
def verify_webhook_hmac (secret : String) (payload : List Nat)
    (signature : Option String) : Bool :=
  match signature with
  | none => false
  | some s =>
      if s = "" then false
      else pyLower (hmacSha256Hex secret payload) = pyLower s

/-! ## Canonical JSON serialization (`json.dumps(payload, sort_keys=True)`)

Used by `log_webhook` to compute the deduplication hash.  The dump is
modelled in two passes: `sortJ` recursively sorts every object's keys,
`dumpJ` serializes with the default separators.  Rationals with
denominator 1 print as Python ints; other numbers use the `ℚ` printer (a
modelling choice — the claims only exercise integer payload numbers). -/

/-- Code-point comparison of strings, the order `sort_keys=True` uses. -/
def strLtChars : List Char → List Char → Bool
  | [], [] => false
  | [], _ :: _ => true
  | _ :: _, [] => false
  | a :: as_, b :: bs =>
      if a.toNat < b.toNat then true
      else if b.toNat < a.toNat then false
      else strLtChars as_ bs

def strLtB (a b : String) : Bool := strLtChars a.data b.data

/-- Insert a field into a key-sorted field list. -/
def insortField (p : String × JVal) :
    List (String × JVal) → List (String × JVal)
  | [] => [p]
  | q :: rest =>
      if strLtB q.1 p.1 then q :: insortField p rest else p :: q :: rest

/-- Insertion sort of a field list by key. -/
def insortFields : List (String × JVal) → List (String × JVal)
  | [] => []
  | p :: rest => insortField p (insortFields rest)

mutual

/-- Recursively sort every object's fields by key. -/
def sortJ : JVal → JVal
  | .null => .null
  | .bool b => .bool b
  | .num q => .num q
  | .str s => .str s
  | .arr xs => .arr (sortJList xs)
  | .obj fs => .obj (insortFields (sortJFields fs))

def sortJList : List JVal → List JVal
  | [] => []
  | x :: xs => sortJ x :: sortJList xs

def sortJFields : List (String × JVal) → List (String × JVal)
  | [] => []
  | (k, v) :: fs => (k, sortJ v) :: sortJFields fs

end

/-- JSON string escaping with `ensure_ascii=True`. -/
def jsonEscapeChar (c : Char) : List Char :=
  if c = '"' then ['\\', '"']
  else if c = '\\' then ['\\', '\\']
  else if c = '\n' then ['\\', 'n']
  else if c = '\t' then ['\\', 't']
  else if c = '\r' then ['\\', 'r']
  else if c.toNat < 32 ∨ c.toNat > 126 then
    ['\\', 'u', hexDigitChar (c.toNat / 4096 % 16), hexDigitChar (c.toNat / 256 % 16),
     hexDigitChar (c.toNat / 16 % 16), hexDigitChar (c.toNat % 16)]
  else [c]

mutual

/-- Serialize with `json.dumps` default separators (`", "` / `": "`). -/
def dumpJ : JVal → String
  | .null => "null"
  | .bool b => if b then "true" else "false"
  | .num q => if q.den = 1 then toString q.num else toString q
  | .str s => "\"" ++ String.mk ((s.data.map jsonEscapeChar).flatten) ++ "\""
  | .arr xs => "[" ++ dumpJList xs ++ "]"
  | .obj fs => "\x7b" ++ dumpJFields fs ++ "\x7d"

def dumpJList : List JVal → String
  | [] => ""
  | [x] => dumpJ x
  | x :: y :: rest => dumpJ x ++ ", " ++ dumpJList (y :: rest)

def dumpJFields : List (String × JVal) → String
  | [] => ""
  | [(k, v)] => dumpJ (.str k) ++ ": " ++ dumpJ v
  | (k, v) :: f :: rest =>
      dumpJ (.str k) ++ ": " ++ dumpJ v ++ ", " ++ dumpJFields (f :: rest)

end

/-- The deduplication hash of `log_webhook`:
`sha256(json.dumps(payload, sort_keys=True).encode()).hexdigest()[:32]`. -/
def payloadHash (payload : JVal) : String :=
  (bytesToHex (SHA256.sha256Bytes (strBytes (dumpJ (sortJ payload))))).take 32

/-! ## Data model (`app/models`) and collaborator oracles -/

/-- The fields of `BigCommerceStore` consumed by the webhook pipeline. -/
structure Store where
  id : Nat
  store_hash : String
  access_token : String
  brand_id : Option String
  auto_sync_products : Bool

/-- A `BigCommerceWebhookLog` row.  Timestamps and the processing-time
column are not modelled (no real time in the embedding). -/
structure LogEntry where
  store_id : Nat
  scope : JVal
  webhook_id : JVal
  hash : String
  payload : JVal
  status : String
  result : Option JVal
  error : Option String

instance : Inhabited LogEntry :=
  ⟨⟨0, .null, .null, "", .null, "received", none, none⟩⟩

/-- `BigCommerceWebhookLog.mark_processed`: note that the status written
is the literal `"success"`. -/
def mark_processed (e : LogEntry) (result : JVal) : LogEntry :=
  { e with status := "success", result := some result }

/-- `BigCommerceWebhookLog.mark_failed`. -/
def mark_failed (e : LogEntry) (error : String) : LogEntry :=
  { e with status := "failed", error := some error }

/-- The outbound `ConversionData` record (`affilync_integrations`). -/
structure ConversionData where
  tracking_code : String
  brand_id : String
  order_id : String
  order_value : ℚ
  total_value : ℚ
  currency : JVal
  conversion_type : String
  customer_email : JVal
  customer_id : Option String
  metadata : JVal

/-- The outbound `AdjustmentData` record (`affilync_integrations`). -/
structure AdjustmentData where
  brand_id : String
  original_order_id : String
  adjustment_type : String
  adjustment_amount : ℚ
  refund_id : String
  metadata : JVal

/-- Result of `ProductSyncService.sync_product_from_webhook`. -/
structure SyncedProduct where
  id : String
  bc_product_id : JVal

/-- One effectful collaborator invocation.  Everything a handler does
besides pure computation is recorded as one of these, so "performs no
outbound call / no state modification" is `calls = []`. -/
inductive ExtCall where
  | getOrder (order_id : JVal)
  | getProduct (product_id : JVal)
  | trackConversion (data : ConversionData)
  | trackAdjustment (data : AdjustmentData)
  | syncProduct (payload : JVal)
  | deleteProduct (payload : JVal)
  | uninstallStore (store_hash : String)

/-- Oracles for the external collaborators.  `Except.error` models the
collaborator raising an exception. -/
structure Env where
  decrypt_token : String → Except String String
  get_order : JVal → Except String JVal
  get_product : JVal → Except String JVal
  track_conversion : ConversionData → Except String JVal
  track_adjustment : AdjustmentData → Except String JVal
  sync_product_from_webhook : Store → JVal → Except String SyncedProduct
  delete_product_from_webhook : Store → JVal → Except String Bool
  uninstall_store : String → Except String Unit

/-! ## Order value extraction (`app/utils/attribution.py`, money part) -/

/-- Python `float(v)` on a modelled value: numbers convert, everything
else raises.  (Python would also parse numeric strings; the payloads the
claims exercise never put strings in money fields.) -/
def pyFloat : JVal → Except String ℚ
  | .num q => .ok q
  | .bool b => .ok (if b then 1 else 0)
  | _ => .error "TypeError: float"

/-- `d.get(k)` with the Python idiom `if x is None: x = d.get(k2) ...`:
a missing key or a present `null` both fall through. -/
def getNonNull (v : JVal) (k : String) : Except String (Option JVal) := do
  let o ← pyGetOpt v k
  match o with
  | some .null => pure none
  | x => pure x

/-- `get_order_total`: falls back through `total_inc_tax`,
`total_ex_tax`, `subtotal_inc_tax`, then `subtotal_ex_tax` with default
0, and converts with `float(...)`. -/
def get_order_total (order_data : JVal) : Except String ℚ := do
  let t1 ← getNonNull order_data "total_inc_tax"
  match t1 with
  | some v => pyFloat v
  | none =>
    let t2 ← getNonNull order_data "total_ex_tax"
    match t2 with
    | some v => pyFloat v
    | none =>
      let t3 ← getNonNull order_data "subtotal_inc_tax"
      match t3 with
      | some v => pyFloat v
      | none => do
        let t4 ← pyGetD order_data "subtotal_ex_tax" (.num 0)
        pyFloat t4

/-- `get_order_subtotal`: `subtotal_inc_tax`, then `subtotal_ex_tax`
with default 0. -/
def get_order_subtotal (order_data : JVal) : Except String ℚ := do
  let s1 ← getNonNull order_data "subtotal_inc_tax"
  match s1 with
  | some v => pyFloat v
  | none => do
    let s2 ← pyGetD order_data "subtotal_ex_tax" (.num 0)
    pyFloat s2

/-- One normalized line item of `extract_order_line_items`. -/
def lineItem (item : JVal) : Except String JVal := do
  let pid ← pyGetOpt item "product_id"
  let vid ← pyGetOpt item "variant_id"
  let nm ← pyGetOpt item "name"
  let sku ← pyGetOpt item "sku"
  let qty ← pyGetOpt item "quantity"
  let priceV ← pyGetD item "price_inc_tax" (.num 0)
  let price ← pyFloat priceV
  let totalV ← pyGetD item "total_inc_tax" (.num 0)
  let total ← pyFloat totalV
  pure (JVal.obj
    [("product_id", pid.getD .null), ("variant_id", vid.getD .null),
     ("name", nm.getD .null), ("sku", sku.getD .null),
     ("quantity", qty.getD .null), ("price", .num price),
     ("total", .num total)])

def lineItemsLoop : List JVal → Except String (List JVal)
  | [] => .ok []
  | item :: rest => do
      let li ← lineItem item
      let tail ← lineItemsLoop rest
      pure (li :: tail)

/-- `extract_order_line_items` over `order_data.get("products", [])`. -/
def extract_order_line_items (order_data : JVal) :
    Except String (List JVal) := do
  let ps ← pyGetD order_data "products" (.arr [])
  let items ← pyIter ps
  lineItemsLoop items

/-! ## Conversion service (`app/services/conversion_service.py`) -/

/-- Python `v in [4]` on the order's `status_id` value. -/
def pyEqNum (v : JVal) (n : ℚ) : Bool :=
  match v with
  | .num q => q = n
  | .bool b => (if b then (1 : ℚ) else 0) = n
  | _ => false

/-- `ConversionService._build_conversion_data`.  `conversion_type` is
`"refund"` exactly when `status_id in [4]`, else `"purchase"`. -/
def _build_conversion_data (store : Store) (order_data : JVal)
    (tracking_code : String) : Except String ConversionData := do
  let oid ← pyGetOpt order_data "id"
  let total_value ← get_order_total order_data
  let subtotal ← get_order_subtotal order_data
  let currency ← pyGetD order_data "currency_code" (.str "USD")
  let billing ← pyGetD order_data "billing_address" (.obj [])
  let bemail ← pyGetOpt billing "email"
  let oemail ← pyGetOpt order_data "email"
  let customer_email :=
    if truthy (bemail.getD .null) then bemail.getD .null else oemail.getD .null
  let cid ← pyGetOpt order_data "customer_id"
  let line_items ← extract_order_line_items order_data
  let status_id ← pyGetD order_data "status_id" (.num 0)
  let status ← pyGetD order_data "status" (.str "")
  let conversion_type := if pyEqNum status_id 4 then "refund" else "purchase"
  let payment_method ← pyGetOpt order_data "payment_method"
  let discV ← pyGetD order_data "discount_amount" (.num 0)
  let disc ← pyFloat discV
  let coupV ← pyGetD order_data "coupon_discount" (.num 0)
  let coup ← pyFloat coupV
  let created ← pyGetOpt order_data "date_created"
  pure
    { tracking_code := tracking_code
      brand_id := store.brand_id.getD ""
      order_id := "bigcommerce_" ++ pyStr (oid.getD .null)
      order_value := subtotal
      total_value := total_value
      currency := currency
      conversion_type := conversion_type
      customer_email := customer_email
      customer_id :=
        if truthy (cid.getD .null) then some (pyStr (cid.getD .null)) else none
      metadata := JVal.obj
        [("source", .str "bigcommerce"), ("store_hash", .str store.store_hash),
         ("bc_order_id", oid.getD .null), ("status_id", status_id),
         ("status", status), ("payment_method", payment_method.getD .null),
         ("line_items", .arr line_items), ("discount_amount", .num disc),
         ("coupon_discount", .num coup),
         ("order_created_at", created.getD .null)] }

/-- `ConversionService.process_order`.  The pair is (result or raised
exception, trace of collaborator calls).  The no-attribution and
not-connected checks happen before any outbound call; exceptions raised
by the Affilync API call are caught and turned into an `"error"` result
(the call is still in the trace: it was attempted). -/
def process_order (env : Env) (store : Store) (order_data : JVal)
    (_scope : String) : Except String JVal × List ExtCall :=
  match (do
      let oid ← pyGetOpt order_data "id"
      let tc ← extract_tracking_code order_data
      pure (oid, tc) : Except String (Option JVal × Option String)) with
  | .error e => (.error e, [])
  | .ok (oid, tc) =>
    let oidv := oid.getD .null
    if !optTruthy tc then
      (.ok (.obj [("status", .str "no_attribution"), ("order_id", oidv),
                  ("message", .str "No tracking code found")]), [])
    else
      let tracking_code := tc.getD ""
      if store.brand_id.getD "" = "" then
        (.ok (.obj [("status", .str "not_connected"), ("order_id", oidv),
                    ("tracking_code", .str tracking_code),
                    ("message", .str "Store not connected to Affilync")]), [])
      else
        match _build_conversion_data store order_data tracking_code with
        | .error e => (.error e, [])
        | .ok conversion_data =>
          match env.track_conversion conversion_data with
          | .ok res =>
            -- `result.get("conversion_id")` happens inside the `try`;
            -- a non-dict response therefore lands in the except branch.
            (match pyGetOpt res "conversion_id" with
             | .ok cidv =>
               (.ok (.obj [("status", .str "tracked"), ("order_id", oidv),
                           ("tracking_code", .str tracking_code),
                           ("conversion_id", cidv.getD .null)]),
                [.trackConversion conversion_data])
             | .error e =>
               (.ok (.obj [("status", .str "error"), ("order_id", oidv),
                           ("tracking_code", .str tracking_code),
                           ("error", .str e)]),
                [.trackConversion conversion_data]))
          | .error e =>
            (.ok (.obj [("status", .str "error"), ("order_id", oidv),
                        ("tracking_code", .str tracking_code),
                        ("error", .str e)]),
             [.trackConversion conversion_data])

/-- `ConversionService.process_refund`.  The not-connected check is the
first thing after reading the order id, before the refund amount is even
computed and before any outbound call. -/
def process_refund (env : Env) (store : Store) (order_data : JVal) :
    Except String JVal × List ExtCall :=
  match pyGetOpt order_data "id" with
  | .error e => (.error e, [])
  | .ok oid =>
    let oidv := oid.getD .null
    if store.brand_id.getD "" = "" then
      (.ok (.obj [("status", .str "not_connected"), ("order_id", oidv)]), [])
    else
      match (do
          let rv ← pyGetD order_data "refunded_amount" (.num 0)
          pyFloat rv : Except String ℚ) with
      | .error e => (.error e, [])
      | .ok refund_amount =>
        if refund_amount ≤ 0 then
          (.ok (.obj [("status", .str "no_refund"), ("order_id", oidv)]), [])
        else
          match (do
              let st ← pyGetOpt order_data "status"
              pure (AdjustmentData.mk (store.brand_id.getD "")
                ("bigcommerce_" ++ pyStr oidv) "refund" refund_amount
                ("bigcommerce_refund_" ++ pyStr oidv)
                (JVal.obj [("source", .str "bigcommerce"),
                           ("store_hash", .str store.store_hash),
                           ("order_status", st.getD .null)])) :
              Except String AdjustmentData) with
          | .error e => (.error e, [])
          | .ok adjustment_data =>
            match env.track_adjustment adjustment_data with
            | .ok res =>
              (match pyGetOpt res "adjustment_id" with
               | .ok aidv =>
                 (.ok (.obj [("status", .str "adjusted"), ("order_id", oidv),
                             ("adjustment_id", aidv.getD .null),
                             ("refund_amount", .num refund_amount)]),
                  [.trackAdjustment adjustment_data])
               | .error e =>
                 (.ok (.obj [("status", .str "error"), ("order_id", oidv),
                             ("error", .str e)]),
                  [.trackAdjustment adjustment_data]))
            | .error e =>
              (.ok (.obj [("status", .str "error"), ("order_id", oidv),
                          ("error", .str e)]),
               [.trackAdjustment adjustment_data])

/-! ## Webhook handlers and endpoint (`app/routes/webhooks.py`) -/

/-- Python `status_id in bucket` where `status_id` came from
`data.get("status", ...).get("new_status_id")` (so it may be absent or a
non-number, in which case the membership test is false). -/
def statusIn (sid : Option JVal) (bucket : List ℚ) : Bool :=
  match sid with
  | some (.num q) => bucket.contains q
  | some (.bool b) => bucket.contains (if b then 1 else 0)
  | _ => false

/-- `conversion_statuses = [2, 3, 10]` (Shipped, Partially Shipped,
Completed). -/
def conversion_statuses : List ℚ := [2, 3, 10]

/-- `refund_statuses = [4, 5, 6]` (Refunded, Cancelled, Declined). -/
def refund_statuses : List ℚ := [4, 5, 6]

/-- `handle_order_created`: logs and returns the payload's order id; no
collaborator is invoked. -/
def handle_order_created (_env : Env) (_store : Store) (payload : JVal) :
    Except String JVal × List ExtCall :=
  match (do
      let data ← pyGetD payload "data" (.obj [])
      pyGetOpt data "id" : Except String (Option JVal)) with
  | .error e => (.error e, [])
  | .ok oid =>
    (.ok (.obj [("status", .str "logged"), ("order_id", oid.getD .null)]), [])

/-- `handle_order_updated`: identical shape to `handle_order_created`. -/
def handle_order_updated (_env : Env) (_store : Store) (payload : JVal) :
    Except String JVal × List ExtCall :=
  match (do
      let data ← pyGetD payload "data" (.obj [])
      pyGetOpt data "id" : Except String (Option JVal)) with
  | .error e => (.error e, [])
  | .ok oid =>
    (.ok (.obj [("status", .str "logged"), ("order_id", oid.getD .null)]), [])

/-- `handle_order_status_updated`: conversion-bucket codes decrypt the
token, fetch the full order and run `process_order`; refund-bucket codes
fetch and run `process_refund`; all other codes return a logged result
without invoking any collaborator. -/
def handle_order_status_updated (env : Env) (store : Store) (payload : JVal) :
    Except String JVal × List ExtCall :=
  match (do
      let data ← pyGetD payload "data" (.obj [])
      let oid ← pyGetOpt data "id"
      let new_status ← pyGetD data "status" (.obj [])
      let sid ← pyGetOpt new_status "new_status_id"
      pure (oid, sid) : Except String (Option JVal × Option JVal)) with
  | .error e => (.error e, [])
  | .ok (oid, sid) =>
    let oidv := oid.getD .null
    if statusIn sid conversion_statuses then
      match env.decrypt_token store.access_token with
      | .error e => (.error e, [])
      | .ok _access_token =>
        match env.get_order oidv with
        | .error e => (.error e, [.getOrder oidv])
        | .ok order_data =>
          let pr := process_order env store order_data "store/order/statusUpdated"
          (pr.1, .getOrder oidv :: pr.2)
    else if statusIn sid refund_statuses then
      match env.decrypt_token store.access_token with
      | .error e => (.error e, [])
      | .ok _access_token =>
        match env.get_order oidv with
        | .error e => (.error e, [.getOrder oidv])
        | .ok order_data =>
          let pr := process_refund env store order_data
          (pr.1, .getOrder oidv :: pr.2)
    else
      (.ok (.obj [("status", .str "logged"), ("order_id", oidv),
                  ("status_id", sid.getD .null)]), [])

/-- `handle_product_created`. -/
def handle_product_created (env : Env) (store : Store) (payload : JVal) :
    Except String JVal × List ExtCall :=
  match (do
      let data ← pyGetD payload "data" (.obj [])
      pyGetOpt data "id" : Except String (Option JVal)) with
  | .error e => (.error e, [])
  | .ok pid =>
    let pidv := pid.getD .null
    if store.auto_sync_products then
      match env.decrypt_token store.access_token with
      | .error e => (.error e, [])
      | .ok _access_token =>
        match env.get_product pidv with
        | .error e => (.error e, [.getProduct pidv])
        | .ok product_data =>
          let wrapped := JVal.obj [("data", product_data)]
          match env.sync_product_from_webhook store wrapped with
          | .error e => (.error e, [.getProduct pidv, .syncProduct wrapped])
          | .ok product =>
            (.ok (.obj [("status", .str "synced"),
                        ("product_id", .str product.id),
                        ("bc_product_id", product.bc_product_id)]),
             [.getProduct pidv, .syncProduct wrapped])
    else
      (.ok (.obj [("status", .str "logged"), ("product_id", pidv)]), [])

/-- `handle_product_updated` (same structure; result status `"updated"`). -/
def handle_product_updated (env : Env) (store : Store) (payload : JVal) :
    Except String JVal × List ExtCall :=
  match (do
      let data ← pyGetD payload "data" (.obj [])
      pyGetOpt data "id" : Except String (Option JVal)) with
  | .error e => (.error e, [])
  | .ok pid =>
    let pidv := pid.getD .null
    if store.auto_sync_products then
      match env.decrypt_token store.access_token with
      | .error e => (.error e, [])
      | .ok _access_token =>
        match env.get_product pidv with
        | .error e => (.error e, [.getProduct pidv])
        | .ok product_data =>
          let wrapped := JVal.obj [("data", product_data)]
          match env.sync_product_from_webhook store wrapped with
          | .error e => (.error e, [.getProduct pidv, .syncProduct wrapped])
          | .ok product =>
            (.ok (.obj [("status", .str "updated"),
                        ("product_id", .str product.id),
                        ("bc_product_id", product.bc_product_id)]),
             [.getProduct pidv, .syncProduct wrapped])
    else
      (.ok (.obj [("status", .str "logged"), ("product_id", pidv)]), [])

/-- `handle_product_deleted`. -/
def handle_product_deleted (env : Env) (store : Store) (payload : JVal) :
    Except String JVal × List ExtCall :=
  match (do
      let data ← pyGetD payload "data" (.obj [])
      pyGetOpt data "id" : Except String (Option JVal)) with
  | .error e => (.error e, [])
  | .ok pid =>
    let pidv := pid.getD .null
    let wrapped := JVal.obj [("data", .obj [("id", pidv)])]
    match env.delete_product_from_webhook store wrapped with
    | .error e => (.error e, [.deleteProduct wrapped])
    | .ok deleted =>
      (.ok (.obj [("status", .str (if deleted then "deleted" else "not_found")),
                  ("bc_product_id", pidv)]),
       [.deleteProduct wrapped])

/-- `handle_app_uninstalled`. -/
def handle_app_uninstalled (env : Env) (store : Store) (_payload : JVal) :
    Except String JVal × List ExtCall :=
  match env.uninstall_store store.store_hash with
  | .error e => (.error e, [.uninstallStore store.store_hash])
  | .ok _ =>
    (.ok (.obj [("status", .str "uninstalled"),
                ("store_hash", .str store.store_hash)]),
     [.uninstallStore store.store_hash])

/-- `route_webhook`: static scope dispatch table; an unrecognized scope is
acknowledged as `"unhandled"`. -/
def route_webhook (env : Env) (scope : JVal) (store : Store) (payload : JVal) :
    Except String JVal × List ExtCall :=
  match scope with
  | .str "store/order/created" => handle_order_created env store payload
  | .str "store/order/updated" => handle_order_updated env store payload
  | .str "store/order/statusUpdated" => handle_order_status_updated env store payload
  | .str "store/product/created" => handle_product_created env store payload
  | .str "store/product/updated" => handle_product_updated env store payload
  | .str "store/product/deleted" => handle_product_deleted env store payload
  | .str "store/app/uninstalled" => handle_app_uninstalled env store payload
  | _ => (.ok (.obj [("status", .str "unhandled"), ("scope", scope)]), [])

/-- Python `s.split("/")` (single-character separator), as used on the
`producer` field. -/
def splitSlashChars : List Char → List (List Char)
  | [] => [[]]
  | c :: rest =>
      let r := splitSlashChars rest
      if c = '/' then [] :: r
      else (c :: r.headD []) :: r.tail

def pySplitSlash (s : String) : List String :=
  (splitSlashChars s.data).map String.mk

/-- Indices (from `i` up) of ledger rows matching the dedup key. -/
def dupIndicesAux (h : String) (store_id : Nat) :
    List LogEntry → Nat → List Nat
  | [], _ => []
  | e :: rest, i =>
      if e.hash = h ∧ e.store_id = store_id then
        i :: dupIndicesAux h store_id rest (i + 1)
      else
        dupIndicesAux h store_id rest (i + 1)

/-- Indices of ledger rows matching the dedup key `(hash, store_id)`,
modelling the `WHERE hash = ... AND store_id = ...` query. -/
def dupIndices (ledger : List LogEntry) (h : String) (store_id : Nat) :
    List Nat :=
  dupIndicesAux h store_id ledger 0

/-- `log_webhook`: hash of the canonicalized payload, truncated to 32 hex
characters; if a ledger row with the same `(hash, store_id)` exists *and*
its status is `"processed"`, that row is returned unchanged; otherwise a
new `"received"` row is appended.  Two or more matching rows make
`scalar_one_or_none` raise (`MultipleResultsFound`).  Returns the index
of the relevant row and the updated ledger. -/
def log_webhook (ledger : List LogEntry) (store_id : Nat) (scope : JVal)
    (payload : JVal) (webhook_id : JVal) :
    Except String (Nat × List LogEntry) :=
  let payload_hash := payloadHash payload
  let fresh : LogEntry :=
    ⟨store_id, scope, webhook_id, payload_hash, payload, "received", none, none⟩
  match dupIndices ledger payload_hash store_id with
  | [] => .ok (ledger.length, ledger ++ [fresh])
  | [i] =>
    if (ledger.getD i default).status = "processed" then
      .ok (i, ledger)
    else
      .ok (ledger.length, ledger ++ [fresh])
  | _ => .error "MultipleResultsFound"

/-- `handle_bigcommerce_webhook`, from the point where the body has been
admitted by the HMAC dependency and parsed into `payload` (a failed
signature never reaches this function, and malformed JSON is rejected
with a 400 before it).  Returns the HTTP-success response body, the
updated ledger and the collaborator call trace; `Except.error` models an
exception escaping the endpoint (only possible before the `try` block,
e.g. the dedup lookup finding multiple rows). -/
def handle_bigcommerce_webhook (env : Env) (stores : List Store)
    (ledger : List LogEntry) (payload : JVal) :
    Except String (JVal × List LogEntry × List ExtCall) :=
  match pyGetD payload "producer" (.str "") with
  | .error e => .error e
  | .ok producer =>
    let store_hash : Except String (Option String) :=
      if truthy producer then
        match producer with
        | JVal.str s => .ok (some ((pySplitSlash s).getLastD ""))
        | _ => .error "AttributeError: split"
      else .ok none
    match store_hash with
    | .error e => .error e
    | .ok sh? =>
      let sh := sh?.getD ""
      if sh = "" then
        .ok (.obj [("status", .str "ignored"),
                   ("reason", .str "missing_store_hash")], ledger, [])
      else
        match stores.find? (fun st => st.store_hash = sh) with
        | none =>
          .ok (.obj [("status", .str "ignored"),
                     ("reason", .str "store_not_found")], ledger, [])
        | some store =>
          match pyGetD payload "scope" (.str ""), pyGetOpt payload "hash" with
          | .error e, _ => .error e
          | .ok _, .error e => .error e
          | .ok scope, .ok wid =>
            match log_webhook ledger store.id scope payload (wid.getD .null) with
            | .error e => .error e
            | .ok (idx, ledger1) =>
              let entry := ledger1.getD idx default
              if entry.status = "processed" then
                .ok (.obj [("status", .str "duplicate"),
                           ("result", .str "already_processed")], ledger1, [])
              else
                match route_webhook env scope store payload with
                | (.ok result, calls) =>
                  .ok (.obj [("status", .str "processed"), ("result", result)],
                       ledger1.set idx (mark_processed entry result), calls)
                | (.error e, calls) =>
                  .ok (.obj [("status", .str "error"), ("error", .str e)],
                       ledger1.set idx (mark_failed entry e), calls)

/-! ## Concrete fixtures used to evaluate the model -/

instance : Inhabited ConversionData :=
  ⟨⟨"", "", "", 0, 0, .null, "", .null, none, .null⟩⟩

/-- A connected store (linked brand, auto-sync off). -/
def store0 : Store := ⟨1, "abc123", "enc", some "B1", false⟩

/-- A store with no linked brand. -/
def storeNoBrand : Store := ⟨2, "nobrand", "enc", none, false⟩

/-- The full order record the commerce-platform client returns for the
fixture order (carries a tracking code in a custom field). -/
def orderData0 : JVal :=
  .obj [("id", .num 42),
        ("custom_fields", .arr [.obj [("name", .str "tracking"),
                                      ("value", .str "AF1")]]),
        ("total_inc_tax", .num 50), ("subtotal_inc_tax", .num 45),
        ("status_id", .num 10), ("status", .str "Completed")]

/-- Collaborator oracles: decryption succeeds, the order fetch returns
`orderData0`, the Affilync API succeeds. -/
def env0 : Env :=
  { decrypt_token := fun _ => .ok "tok"
    get_order := fun _ => .ok orderData0
    get_product := fun _ => .error "get_product: not mocked"
    track_conversion := fun _ => .ok (.obj [("conversion_id", .num 99)])
    track_adjustment := fun _ => .ok (.obj [("adjustment_id", .num 7)])
    sync_product_from_webhook := fun _ _ => .error "sync: not mocked"
    delete_product_from_webhook := fun _ _ => .ok false
    uninstall_store := fun _ => .ok () }

/-- Same oracles but the order fetch raises. -/
def envFetchFails : Env :=
  { env0 with get_order := fun _ => .error "Network error fetching order" }

/-- A `store/order/statusUpdated` envelope for order 42 moving to status
10 (Completed), produced by `store0`. -/
def payload0 : JVal :=
  .obj [("scope", .str "store/order/statusUpdated"), ("store_id", .str "123"),
        ("data", .obj [("type", .str "order"), ("id", .num 42),
                       ("status", .obj [("new_status_id", .num 10)])]),
        ("hash", .str "evh1"), ("producer", .str "stores/abc123")]

/-- The same envelope with the non-bucket status 7 (Awaiting Payment). -/
def payloadStatus7 : JVal :=
  .obj [("scope", .str "store/order/statusUpdated"), ("store_id", .str "123"),
        ("data", .obj [("type", .str "order"), ("id", .num 42),
                       ("status", .obj [("new_status_id", .num 7)])]),
        ("hash", .str "evh2"), ("producer", .str "stores/abc123")]

/-- Handler result for the fixture conversion. -/
def trackedResult0 : JVal :=
  .obj [("status", .str "tracked"), ("order_id", .num 42),
        ("tracking_code", .str "AF1"), ("conversion_id", .num 99)]

/-- The conversion record the fixture produces. -/
def cd0 : ConversionData :=
  ((_build_conversion_data store0 orderData0 "AF1").toOption).getD default

/-- Collaborator calls of the fixture delivery. -/
def calls0 : List ExtCall := [.getOrder (.num 42), .trackConversion cd0]

/-- The ledger row after the fixture delivery succeeds: `mark_processed`
wrote the literal status `"success"`. -/
def entry1 : LogEntry :=
  ⟨1, .str "store/order/statusUpdated", .str "evh1", payloadHash payload0,
   payload0, "success", some trackedResult0, none⟩

/-- An order in status 5 (Cancelled), carrying enough fields for the
conversion builder to succeed. -/
def orderStatus5 : JVal :=
  .obj [("id", .num 7), ("status_id", .num 5),
        ("total_inc_tax", .num 30), ("subtotal_inc_tax", .num 30)]

/-- An order whose only attribution signal is a form field named exactly
`aff_code`. -/
def orderFormAff : JVal :=
  .obj [("form_fields", .arr [.obj [("name", .str "aff_code"),
                                    ("value", .str "XQ")]])]

/-- An order with two name-matching custom fields (an earlier
`tracking_code` field and the `Affiliate Code` field) plus a staff note
with `ref=X2`. -/
def orderTwoCustom : JVal :=
  .obj [("custom_fields",
         .arr [.obj [("name", .str "tracking_code"), ("value", .str "Z9")],
               .obj [("name", .str "Affiliate Code"), ("value", .str "X1")]]),
        ("staff_notes", .str "ref=X2")]

/-- An order whose only matching custom field is `Affiliate Code = X1`,
with a staff note containing `ref=X2`. -/
def orderAffiliateX1 : JVal :=
  .obj [("custom_fields",
         .arr [.obj [("name", .str "Affiliate Code"), ("value", .str "X1")]]),
        ("staff_notes", .str "ref=X2")]

/-- An order whose metadata binds `aff_code` to JSON null. -/
def orderMetaNull : JVal :=
  .obj [("metadata", .obj [("aff_code", .null)])]

end Affilync

namespace Affilync

/-! ## Helper lemmas about the ledger and the endpoint -/

theorem getD_append_length {α : Type} (l : List α) (a : α) (d : α) :
    (l ++ [a]).getD l.length d = a := by
  induction l with
  | nil => rfl
  | cons x t ih => simpa using ih

theorem set_append_length {α : Type} (l : List α) (a b : α) :
    (l ++ [a]).set l.length b = l ++ [b] := by
  induction l with
  | nil => rfl
  | cons x t ih => simpa using ih

theorem dupIndicesAux_append (h : String) (sid : Nat) (l : List LogEntry)
    (e : LogEntry) (i : Nat) :
    dupIndicesAux h sid (l ++ [e]) i =
      dupIndicesAux h sid l i ++
        (if e.hash = h ∧ e.store_id = sid then [i + l.length] else []) := by
  induction l generalizing i with
  | nil =>
      simp [dupIndicesAux]
  | cons x t ih =>
      have hidx : i + 1 + t.length = i + (t.length + 1) := by omega
      simp only [List.cons_append, dupIndicesAux, List.length_cons,
        List.append_eq]
      split
      · rw [ih, hidx]
        simp
      · rw [ih, hidx]

/-- `log_webhook` on a ledger with no row for the dedup key appends a
fresh `"received"` row. -/
theorem log_webhook_fresh (ledger : List LogEntry) (store_id : Nat)
    (scope payload webhook_id : JVal)
    (hfresh : dupIndices ledger (payloadHash payload) store_id = []) :
    log_webhook ledger store_id scope payload webhook_id =
      .ok (ledger.length,
           ledger ++ [⟨store_id, scope, webhook_id, payloadHash payload,
                       payload, "received", none, none⟩]) := by
  simp only [log_webhook, hfresh]

/-- `log_webhook` on a ledger whose single row for the dedup key is not
in status `"processed"` also appends a fresh row (re-attempt). -/
theorem log_webhook_not_processed (ledger : List LogEntry) (store_id : Nat)
    (scope payload webhook_id : JVal) (i : Nat)
    (hdup : dupIndices ledger (payloadHash payload) store_id = [i])
    (hstat : (ledger.getD i default).status ≠ "processed") :
    log_webhook ledger store_id scope payload webhook_id =
      .ok (ledger.length,
           ledger ++ [⟨store_id, scope, webhook_id, payloadHash payload,
                       payload, "received", none, none⟩]) := by
  simp only [log_webhook, hdup]
  rw [if_neg hstat]

/-- The endpoint, when the store is known and `log_webhook` appended a
fresh row, routes the event and records the outcome on that row. -/
theorem endpoint_fresh (env : Env) (stores : List Store)
    (ledger : List LogEntry) (payload : JVal) (p : String) (store : Store)
    (scope : JVal) (wid : Option JVal)
    (hprod : pyGetD payload "producer" (.str "") = .ok (.str p))
    (hp : p ≠ "")
    (hsh : (pySplitSlash p).getLastD "" ≠ "")
    (hfind : stores.find? (fun st => st.store_hash = (pySplitSlash p).getLastD "")
               = some store)
    (hscope : pyGetD payload "scope" (.str "") = .ok scope)
    (hwid : pyGetOpt payload "hash" = .ok wid)
    (hlog : log_webhook ledger store.id scope payload (wid.getD .null) =
       .ok (ledger.length,
            ledger ++ [⟨store.id, scope, wid.getD .null, payloadHash payload,
                        payload, "received", none, none⟩])) :
    handle_bigcommerce_webhook env stores ledger payload =
      match route_webhook env scope store payload with
      | (.ok result, calls) =>
        .ok (.obj [("status", .str "processed"), ("result", result)],
             ledger ++ [⟨store.id, scope, wid.getD .null, payloadHash payload,
                         payload, "success", some result, none⟩],
             calls)
      | (.error e, calls) =>
        .ok (.obj [("status", .str "error"), ("error", .str e)],
             ledger ++ [⟨store.id, scope, wid.getD .null, payloadHash payload,
                         payload, "failed", none, some e⟩],
             calls) := by
  have ht : truthy (.str p) = true := by simp [truthy, hp]
  have hset := set_append_length ledger
    (⟨store.id, scope, wid.getD .null, payloadHash payload,
      payload, "received", none, none⟩ : LogEntry)
  have hget := getD_append_length ledger
    (⟨store.id, scope, wid.getD .null, payloadHash payload,
      payload, "received", none, none⟩ : LogEntry) default
  unfold handle_bigcommerce_webhook
  rw [hprod]
  simp only [ht, if_true, Option.getD_some]
  rw [if_neg hsh, hfind]
  dsimp only
  rw [hscope, hwid]
  dsimp only
  rw [hlog]
  dsimp only
  simp only [hget]
  rw [if_neg (by simp : ¬ ("received" : String) = "processed")]
  cases hroute : route_webhook env scope store payload with
  | mk r calls =>
    cases r with
    | ok result =>
        simp only [hset, mark_processed]
    | error e =>
        simp only [hset, mark_failed]

/-! ## Small monadic and bucket lemmas -/

theorem bindE_ok {α β : Type} (a : α) (f : α → Except String β) :
    (do let x ← (Except.ok a : Except String α); f x) = f a := rfl

theorem pureE {α : Type} (a : α) :
    (pure a : Except String α) = Except.ok a := rfl

/-- A code in the refund bucket is never in the conversion bucket. -/
theorem refund_not_conversion (sid : Option JVal)
    (h : statusIn sid refund_statuses = true) :
    statusIn sid conversion_statuses = false := by
  cases sid with
  | none => simp [statusIn] at h
  | some v =>
    cases v with
    | num q =>
        simp only [statusIn, refund_statuses, conversion_statuses] at h ⊢
        have hq : q = 4 ∨ q = 5 ∨ q = 6 := by simpa using h
        rcases hq with rfl | rfl | rfl <;> decide
    | bool b => cases b <;> simp [statusIn, refund_statuses] at h
    | null => simp [statusIn] at h
    | str s => simp [statusIn] at h
    | arr xs => simp [statusIn] at h
    | obj fs => simp [statusIn] at h

/-! ## Digest-length lemmas -/

theorem compressBlock_length (hs b : List Nat) :
    (SHA256.compressBlock hs b).length = 8 := by
  simp [SHA256.compressBlock]

theorem foldl_compress_length (bs : List (List Nat)) (hs : List Nat)
    (h : hs.length = 8) :
    (bs.foldl SHA256.compressBlock hs).length = 8 := by
  induction bs generalizing hs with
  | nil => simpa using h
  | cons b t ih => exact ih _ (compressBlock_length hs b)

theorem toBE_length (n k : Nat) : (SHA256.toBE n k).length = k := by
  simp [SHA256.toBE]

theorem flatten_toBE_length (hs : List Nat) :
    ((hs.map (fun w => SHA256.toBE w 4)).flatten).length = 4 * hs.length := by
  induction hs with
  | nil => simp
  | cons w t ih => simp [ih, toBE_length]; omega

theorem sha256Bytes_length (m : List Nat) :
    (SHA256.sha256Bytes m).length = 32 := by
  unfold SHA256.sha256Bytes
  rw [flatten_toBE_length]
  rw [foldl_compress_length _ _ (by rfl)]

theorem flatten_hexPairs_length (bs : List Nat) :
    ((bs.map (fun b => [hexDigitChar (b / 16 % 16),
        hexDigitChar (b % 16)])).flatten).length = 2 * bs.length := by
  induction bs with
  | nil => simp
  | cons b t ih => simp [ih]; omega

theorem bytesToHex_length (bs : List Nat) :
    (bytesToHex bs).length = 2 * bs.length := by
  show ((bs.map _).flatten).length = 2 * bs.length
  exact flatten_hexPairs_length bs

theorem hmacSha256Hex_length (secret : String) (payload : List Nat) :
    (hmacSha256Hex secret payload).length = 64 := by
  simp [hmacSha256Hex, hmacSha256, bytesToHex_length, sha256Bytes_length]

theorem pyLower_length (s : String) : (pyLower s).length = s.length := by
  show (s.data.map Char.toLower).length = s.data.length
  simp

/-! ## Claim theorems -/

/-- Claim C2: `verify_webhook_hmac` returns true exactly when the
presented signature is present, non-empty, and — lower-cased — equals
the lower-cased hex HMAC-SHA256 digest of the raw payload under the
secret; the hex digest always has 64 characters, so any signature of a
different length (truncated in particular) is rejected.  An absent
(`none`) or empty signature yields false without raising; the comparison
in the source goes through `hmac.compare_digest`, modelled by its
functional behaviour (string equality). -/
theorem claim_C2_hmac_verification (secret : String) (payload : List Nat)
    (signature : Option String) :
    (verify_webhook_hmac secret payload signature = true ↔
       ∃ s, signature = some s ∧ s ≠ "" ∧
         pyLower s = pyLower (hmacSha256Hex secret payload)) ∧
    ((hmacSha256Hex secret payload).length = 64 ∧
     ∀ s, s.length ≠ 64 →
       verify_webhook_hmac secret payload (some s) = false) := by
  refine ⟨?_, hmacSha256Hex_length secret payload, ?_⟩
  · cases signature with
    | none => simp [verify_webhook_hmac]
    | some s =>
      by_cases hs : s = ""
      · simp [verify_webhook_hmac, hs]
      · simp only [verify_webhook_hmac, hs, if_neg, if_false,
          decide_eq_true_eq, Option.some.injEq]
        constructor
        · intro h
          exact ⟨s, rfl, hs, h.symm⟩
        · rintro ⟨t, ht, -, hlow⟩
          subst ht
          exact hlow.symm
  · intro s hlen
    by_cases hs : s = ""
    · simp [verify_webhook_hmac, hs]
    · simp only [verify_webhook_hmac, hs, if_neg, if_false]
      apply decide_eq_false
      intro h
      apply hlen
      have := congrArg String.length h
      rw [pyLower_length, pyLower_length, hmacSha256Hex_length] at this
      exact this.symm

/-- Claim C2 witness: a three-character signature is rejected for a
concrete payload, via the truncation clause of the theorem. -/
theorem claim_C2_witness :
    verify_webhook_hmac "secret" [1, 2, 3] (some "abc") = false :=
  (claim_C2_hmac_verification "secret" [1, 2, 3] (some "abc")).2.2
    "abc" (by decide)

/-- Claim C10: the `store/order/created` and `store/order/updated`
handlers invoke no collaborator at all (empty call trace, so no fetch,
no affiliate-backend call, no product or store mutation) and return only
a logged result carrying the `id` field of the payload's `data` map; an
absent `id` yields JSON null, not an error. -/
theorem claim_C10_order_handlers_log_only (env : Env) (store : Store)
    (payload : JVal) (fs : List (String × JVal))
    (hdata : pyGetD payload "data" (.obj []) = .ok (.obj fs)) :
    handle_order_created env store payload =
      (.ok (.obj [("status", .str "logged"),
                  ("order_id", (lookupField fs "id").getD .null)]), []) ∧
    handle_order_updated env store payload =
      (.ok (.obj [("status", .str "logged"),
                  ("order_id", (lookupField fs "id").getD .null)]), []) := by
  constructor <;>
    simp [handle_order_created, handle_order_updated, hdata, pyGetOpt,
      Bind.bind, Except.bind]

/-- Claim C10 witness: a payload whose `data` map has no `id` field is
logged with a null order id and an empty call trace. -/
theorem claim_C10_witness :
    handle_order_created env0 store0
      (.obj [("data", .obj [("type", .str "order")])]) =
      (.ok (.obj [("status", .str "logged"), ("order_id", .null)]), []) := by
  simpa using (claim_C10_order_handlers_log_only env0 store0
    (.obj [("data", .obj [("type", .str "order")])])
    [("type", .str "order")] rfl).1

/-- Claim C7: for a store with no linked brand identifier, neither
`process_order` nor `process_refund` makes any collaborator call (the
call trace is empty, so in particular no `track_conversion` and no
`track_adjustment`); when a tracking code was resolved, `process_order`
returns the `not_connected` result, and `process_refund` always returns
`not_connected` — in both services the brand check precedes any network
call. -/
theorem claim_C7_no_brand_no_outbound (env : Env) (store : Store)
    (order_data : JVal) (scope : String)
    (hb : store.brand_id = none) :
    (process_order env store order_data scope).2 = [] ∧
    (∀ oid tc, pyGetOpt order_data "id" = .ok oid →
       extract_tracking_code order_data = .ok (some tc) → tc ≠ "" →
       (process_order env store order_data scope).1 =
         .ok (.obj [("status", .str "not_connected"),
                    ("order_id", oid.getD .null),
                    ("tracking_code", .str tc),
                    ("message", .str "Store not connected to Affilync")])) ∧
    (process_refund env store order_data).2 = [] ∧
    (∀ oid, pyGetOpt order_data "id" = .ok oid →
       (process_refund env store order_data).1 =
         .ok (.obj [("status", .str "not_connected"),
                    ("order_id", oid.getD .null)])) := by
  refine ⟨?_, ?_, ?_, ?_⟩
  · unfold process_order
    split
    · rfl
    · split
      · rfl
      · simp [hb]
  · intro oid tc hoid htc htcne
    unfold process_order
    rw [show (do
        let oid ← pyGetOpt order_data "id"
        let tc ← extract_tracking_code order_data
        pure (oid, tc) : Except String (Option JVal × Option String)) =
      .ok (oid, some tc) by rw [hoid, bindE_ok, htc, bindE_ok, pureE]]
    simp [optTruthy, htcne, hb]
  · unfold process_refund
    split
    · rfl
    · simp [hb]
  · intro oid hoid
    unfold process_refund
    rw [hoid]
    simp [hb]

/-- Claim C7 witness: a store without a brand, an order that resolves a
tracking code from a custom field — `process_order` reports
`not_connected` and makes no call. -/
theorem claim_C7_witness :
    (process_order env0 storeNoBrand orderData0 "store/order/statusUpdated").2
        = [] ∧
    (process_order env0 storeNoBrand orderData0 "store/order/statusUpdated").1
        = .ok (.obj [("status", .str "not_connected"),
                     ("order_id", .num 42),
                     ("tracking_code", .str "AF1"),
                     ("message", .str "Store not connected to Affilync")]) := by
  have h := claim_C7_no_brand_no_outbound env0 storeNoBrand orderData0
    "store/order/statusUpdated" rfl
  refine ⟨h.1, ?_⟩
  have h2 := h.2.1 (some (.num 42)) "AF1" rfl (by decide) (by decide)
  simpa using h2

/-- Claim C3: the status-change router partitions codes into the
conversion bucket `[2, 3, 10]` (2 and 10 in particular) — decrypt, fetch
the full order, then run `process_order` — and the refund bucket
`[4, 5, 6]` — fetch then `process_refund`; any other code (1, 7 and 9 in
particular) produces only a logged result with the order id and status
id, with an empty call trace (no fetch, no outbound call). -/
theorem claim_C3_status_bucketing (env : Env) (store : Store) (payload : JVal)
    (data st : JVal) (oid sid : Option JVal)
    (hdata : pyGetD payload "data" (.obj []) = .ok data)
    (hoid : pyGetOpt data "id" = .ok oid)
    (hst : pyGetD data "status" (.obj []) = .ok st)
    (hsid : pyGetOpt st "new_status_id" = .ok sid) :
    (statusIn (some (.num 2)) conversion_statuses = true ∧
     statusIn (some (.num 10)) conversion_statuses = true ∧
     statusIn (some (.num 4)) refund_statuses = true ∧
     statusIn (some (.num 5)) refund_statuses = true ∧
     statusIn (some (.num 6)) refund_statuses = true ∧
     statusIn (some (.num 1)) conversion_statuses = false ∧
     statusIn (some (.num 1)) refund_statuses = false ∧
     statusIn (some (.num 7)) conversion_statuses = false ∧
     statusIn (some (.num 7)) refund_statuses = false ∧
     statusIn (some (.num 9)) conversion_statuses = false ∧
     statusIn (some (.num 9)) refund_statuses = false) ∧
    (statusIn sid conversion_statuses = true →
      ∀ tok order_data, env.decrypt_token store.access_token = .ok tok →
        env.get_order (oid.getD .null) = .ok order_data →
        handle_order_status_updated env store payload =
          ((process_order env store order_data "store/order/statusUpdated").1,
           .getOrder (oid.getD .null) ::
             (process_order env store order_data
               "store/order/statusUpdated").2)) ∧
    (statusIn sid refund_statuses = true →
      ∀ tok order_data, env.decrypt_token store.access_token = .ok tok →
        env.get_order (oid.getD .null) = .ok order_data →
        handle_order_status_updated env store payload =
          ((process_refund env store order_data).1,
           .getOrder (oid.getD .null) ::
             (process_refund env store order_data).2)) ∧
    (statusIn sid conversion_statuses = false →
     statusIn sid refund_statuses = false →
      handle_order_status_updated env store payload =
        (.ok (.obj [("status", .str "logged"), ("order_id", oid.getD .null),
                    ("status_id", sid.getD .null)]), [])) := by
  have hpre : (do
      let data ← pyGetD payload "data" (.obj [])
      let oid ← pyGetOpt data "id"
      let new_status ← pyGetD data "status" (.obj [])
      let sid ← pyGetOpt new_status "new_status_id"
      pure (oid, sid) : Except String (Option JVal × Option JVal)) =
      .ok (oid, sid) := by
    rw [hdata, bindE_ok, hoid, bindE_ok, hst, bindE_ok, hsid, bindE_ok, pureE]
  refine ⟨by decide, ?_, ?_, ?_⟩
  · intro hconv tok order_data hdec hfetch
    unfold handle_order_status_updated
    rw [hpre]
    simp only [hconv, if_true, hdec, hfetch]
  · intro href tok order_data hdec hfetch
    unfold handle_order_status_updated
    rw [hpre]
    simp only [refund_not_conversion sid href, Bool.false_eq_true, if_false,
      href, if_true, hdec, hfetch]
  · intro hc hr
    unfold handle_order_status_updated
    rw [hpre]
    simp only [hc, hr, Bool.false_eq_true, if_false]

/-- Claim C3 witness: status code 7 (Awaiting Payment) is in neither
bucket — the handler only logs and makes no call. -/
theorem claim_C3_witness :
    handle_order_status_updated env0 store0 payloadStatus7 =
      (.ok (.obj [("status", .str "logged"), ("order_id", .num 42),
                  ("status_id", .num 7)]), []) := by
  simpa using (claim_C3_status_bucketing env0 store0 payloadStatus7
    (.obj [("type", .str "order"), ("id", .num 42),
           ("status", .obj [("new_status_id", .num 7)])])
    (.obj [("new_status_id", .num 7)])
    (some (.num 42)) (some (.num 7))
    rfl rfl rfl rfl).2.2.2 (by decide) (by decide)

/-- Claim C8: when the routed handler raises, the endpoint catches the
exception, marks the ledger row `"failed"` with the exception text in
the `error` column, and still answers with an HTTP-success-shaped body
`status = "error"` carrying that text — the exception never escapes. -/
theorem claim_C8_handler_exception_caught (env : Env) (stores : List Store)
    (ledger : List LogEntry) (payload : JVal) (p : String) (store : Store)
    (scope : JVal) (wid : Option JVal) (e : String) (calls : List ExtCall)
    (hprod : pyGetD payload "producer" (.str "") = .ok (.str p))
    (hp : p ≠ "")
    (hsh : (pySplitSlash p).getLastD "" ≠ "")
    (hfind : stores.find? (fun st => st.store_hash = (pySplitSlash p).getLastD "")
               = some store)
    (hscope : pyGetD payload "scope" (.str "") = .ok scope)
    (hwid : pyGetOpt payload "hash" = .ok wid)
    (hfresh : dupIndices ledger (payloadHash payload) store.id = [])
    (hroute : route_webhook env scope store payload = (.error e, calls)) :
    handle_bigcommerce_webhook env stores ledger payload =
      .ok (.obj [("status", .str "error"), ("error", .str e)],
           ledger ++ [⟨store.id, scope, wid.getD .null, payloadHash payload,
                       payload, "failed", none, some e⟩],
           calls) := by
  have h := endpoint_fresh env stores ledger payload p store scope wid
    hprod hp hsh hfind hscope hwid
    (log_webhook_fresh ledger store.id scope payload (wid.getD .null) hfresh)
  rw [h, hroute]

/-- Claim C8 witness: a delivery whose order fetch raises is acknowledged
with `status = "error"` and the ledger row is `"failed"` with the
captured text. -/
theorem claim_C8_witness :
    handle_bigcommerce_webhook envFetchFails [store0] [] payload0 =
      .ok (.obj [("status", .str "error"),
                 ("error", .str "Network error fetching order")],
           [⟨1, .str "store/order/statusUpdated", .str "evh1",
             payloadHash payload0, payload0, "failed", none,
             some "Network error fetching order"⟩],
           [.getOrder (.num 42)]) := by
  simpa using claim_C8_handler_exception_caught envFetchFails [store0] []
    payload0 "stores/abc123" store0 (.str "store/order/statusUpdated")
    (some (.str "evh1")) "Network error fetching order"
    [.getOrder (.num 42)]
    rfl (by decide) (by decide) rfl rfl rfl rfl rfl

/-- Claim C4 counterexample: for an order in status 5 (Cancelled) — a
code the claim places in the refund-equivalent bucket — the builder
produces `conversion_type = "purchase"`, not `"refund"`: the source
tests `status_id in [4]`, covering only code 4. -/
theorem claim_C4_counterexample :
    (match _build_conversion_data store0 orderStatus5 "T1" with
     | .ok cd => cd.conversion_type
     | .error _ => "raised") = "purchase" ∧
    ¬ (match _build_conversion_data store0 orderStatus5 "T1" with
       | .ok cd => cd.conversion_type
       | .error _ => "raised") = "refund" := by
  constructor <;> decide

/-- Claim C4 (amended): whenever the conversion builder succeeds it
produces exactly the record below; in particular `conversion_type` is
`"refund"` exactly when the order's `status_id` field (default 0) equals
4 (Refunded), and `"purchase"` for every other code — including 5
(Cancelled) and 6 (Declined). -/
theorem claim_C4_amended (store : Store) (order_data : JVal)
    (tracking_code : String) (oid : Option JVal) (total sub : ℚ)
    (currency billing : JVal) (bemail oemail cid : Option JVal)
    (line_items : List JVal) (sidv statusv : JVal) (pm created : Option JVal)
    (discV coupV : JVal) (disc coup : ℚ)
    (h1 : pyGetOpt order_data "id" = .ok oid)
    (h2 : get_order_total order_data = .ok total)
    (h3 : get_order_subtotal order_data = .ok sub)
    (h4 : pyGetD order_data "currency_code" (.str "USD") = .ok currency)
    (h5 : pyGetD order_data "billing_address" (.obj []) = .ok billing)
    (h6 : pyGetOpt billing "email" = .ok bemail)
    (h7 : pyGetOpt order_data "email" = .ok oemail)
    (h8 : pyGetOpt order_data "customer_id" = .ok cid)
    (h9 : extract_order_line_items order_data = .ok line_items)
    (h10 : pyGetD order_data "status_id" (.num 0) = .ok sidv)
    (h11 : pyGetD order_data "status" (.str "") = .ok statusv)
    (h12 : pyGetOpt order_data "payment_method" = .ok pm)
    (h13 : pyGetD order_data "discount_amount" (.num 0) = .ok discV)
    (h14 : pyFloat discV = .ok disc)
    (h15 : pyGetD order_data "coupon_discount" (.num 0) = .ok coupV)
    (h16 : pyFloat coupV = .ok coup)
    (h17 : pyGetOpt order_data "date_created" = .ok created) :
    _build_conversion_data store order_data tracking_code =
      .ok { tracking_code := tracking_code
            brand_id := store.brand_id.getD ""
            order_id := "bigcommerce_" ++ pyStr (oid.getD .null)
            order_value := sub
            total_value := total
            currency := currency
            conversion_type := if pyEqNum sidv 4 then "refund" else "purchase"
            customer_email := if truthy (bemail.getD .null) then
                bemail.getD .null else oemail.getD .null
            customer_id := if truthy (cid.getD .null) then
                some (pyStr (cid.getD .null)) else none
            metadata := JVal.obj
              [("source", .str "bigcommerce"),
               ("store_hash", .str store.store_hash),
               ("bc_order_id", oid.getD .null), ("status_id", sidv),
               ("status", statusv), ("payment_method", pm.getD .null),
               ("line_items", .arr line_items), ("discount_amount", .num disc),
               ("coupon_discount", .num coup),
               ("order_created_at", created.getD .null)] } := by
  unfold _build_conversion_data
  rw [h1, bindE_ok, h2, bindE_ok, h3, bindE_ok, h4, bindE_ok, h5, bindE_ok,
    h6, bindE_ok, h7, bindE_ok, h8, bindE_ok, h9, bindE_ok, h10, bindE_ok,
    h11, bindE_ok, h12, bindE_ok, h13, bindE_ok, h14, bindE_ok, h15,
    bindE_ok, h16, bindE_ok, h17, bindE_ok, pureE]

/-- Claim C4 witness: the amended claim applied to the cancelled-status
order — the builder succeeds with `conversion_type = "purchase"`. -/
theorem claim_C4_witness :
    _build_conversion_data store0 orderStatus5 "T1" =
      .ok { tracking_code := "T1", brand_id := "B1",
            order_id := "bigcommerce_7", order_value := 30, total_value := 30,
            currency := .str "USD", conversion_type := "purchase",
            customer_email := .null, customer_id := none,
            metadata := JVal.obj
              [("source", .str "bigcommerce"), ("store_hash", .str "abc123"),
               ("bc_order_id", .num 7), ("status_id", .num 5),
               ("status", .str ""), ("payment_method", .null),
               ("line_items", .arr []), ("discount_amount", .num 0),
               ("coupon_discount", .num 0),
               ("order_created_at", .null)] } := by
  have h := claim_C4_amended store0 orderStatus5 "T1" (some (.num 7)) 30 30
    (.str "USD") (.obj []) none none none [] (.num 5) (.str "") none none
    (.num 0) (.num 0) 0 0 rfl rfl rfl rfl rfl rfl rfl rfl rfl rfl rfl rfl
    rfl rfl rfl rfl rfl
  exact h

/-- Claim C5 counterexample: an order whose only signal is a form field
named exactly `aff_code` (value `"XQ"`) yields no tracking code — the
form-field probe's keyword list is `["tracking", "affiliate", "ref"]`
and does not include `"aff_code"`, unlike the custom-field probe. -/
theorem claim_C5_counterexample :
    extract_tracking_code orderFormAff = .ok none ∧
    ¬ extract_tracking_code orderFormAff = .ok (some "XQ") := by
  constructor <;> decide

/-- Claim C5 (amended): the form-field probe applies the same
case-insensitive name-substring test as the custom-field probe but over
the keyword set `{tracking, affiliate, ref}` — `aff_code` is not in the
list, and the string `"aff_code"` contains none of the three keywords,
so a field named exactly `aff_code` never matches; for every order where
steps 1–4 yield nothing, a matching form-field entry with a truthy value
makes `extract_tracking_code` return its stringified, trimmed value. -/
theorem claim_C5_amended :
    (∀ (name : String) (value : JVal) (rest : List JVal),
       (["tracking", "affiliate", "ref"].any
          (fun key => strContains (pyLower name) key)) = true →
       truthy value = true →
       customFieldsLoop ["tracking", "affiliate", "ref"]
         (.obj [("name", .str name), ("value", value)] :: rest) =
         .ok (some (pyStrip (pyStr value)))) ∧
    ((["tracking", "affiliate", "ref"].any
        (fun key => strContains (pyLower "aff_code") key)) = false) ∧
    (∀ (order : JVal) (r1 : Option String) (sn : JVal) (r2 : Option String)
       (cm : JVal) (r3 r4 : Option String) (v : String),
       _extract_from_custom_fields order = .ok r1 → optTruthy r1 = false →
       pyGetD order "staff_notes" (.str "") = .ok sn →
       _extract_from_notes sn = .ok r2 → optTruthy r2 = false →
       pyGetD order "customer_message" (.str "") = .ok cm →
       _extract_from_notes cm = .ok r3 → optTruthy r3 = false →
       _extract_from_metadata order = .ok r4 → optTruthy r4 = false →
       _extract_from_form_fields order = .ok (some v) → v ≠ "" →
       extract_tracking_code order = .ok (some v)) := by
  refine ⟨?_, by decide, ?_⟩
  · intro name value rest hmatch hval
    unfold customFieldsLoop
    rw [show pyGetD (.obj [("name", .str name), ("value", value)]) "name"
          (.str "") = .ok (.str name) from rfl, bindE_ok,
        show pyLowerVal (.str name) = .ok (pyLower name) from rfl, bindE_ok,
        hmatch]
    simp only [if_true]
    rw [show pyGetOpt (.obj [("name", .str name), ("value", value)]) "value"
          = .ok (some value) from rfl, bindE_ok]
    simp only [Option.getD_some, hval, if_true, pureE]
  · intro order r1 sn r2 cm r3 r4 v h1 hr1 hsn h2 hr2 hcm h3 hr3 h4 hr4 h5 hv
    unfold extract_tracking_code
    rw [h1, bindE_ok]
    simp only [hr1, Bool.false_eq_true, if_false]
    rw [hsn, bindE_ok, h2, bindE_ok]
    simp only [hr2, Bool.false_eq_true, if_false]
    rw [hcm, bindE_ok, h3, bindE_ok]
    simp only [hr3, Bool.false_eq_true, if_false]
    rw [h4, bindE_ok]
    simp only [hr4, Bool.false_eq_true, if_false]
    rw [h5, bindE_ok]
    simp [optTruthy, hv, pureE]

/-- Claim C5 witness: a form field named `my_ref_field` with value
`" XR "` resolves (name contains `ref`), trimmed to `"XR"`. -/
theorem claim_C5_witness :
    extract_tracking_code
      (.obj [("form_fields", .arr [.obj [("name", .str "my_ref_field"),
                                         ("value", .str " XR ")]])]) =
      .ok (some "XR") := by
  have h := (claim_C5_amended).2.2
    (.obj [("form_fields", .arr [.obj [("name", .str "my_ref_field"),
                                       ("value", .str " XR ")]])])
    none (.str "") none (.str "") none none "XR"
    rfl rfl rfl rfl rfl rfl rfl rfl rfl rfl (by decide) (by decide)
  exact h

/-- Claim C6 counterexample: an order containing both the custom field
`Affiliate Code = X1` and a staff note with `ref=X2` — but also an
earlier custom field `tracking_code = Z9` — resolves `"Z9"`, not
`"X1"`: the probe returns the first name-matching field, so the claim's
universal statement fails. -/
theorem claim_C6_counterexample :
    extract_tracking_code orderTwoCustom = .ok (some "Z9") ∧
    ¬ extract_tracking_code orderTwoCustom = .ok (some "X1") := by
  constructor <;> decide

/-- Claim C6 (amended): when the first name-matching custom field with a
truthy value is `Affiliate Code = X1`, the custom-field probe returns
`"X1"` regardless of the remaining fields; whenever the custom-field
probe resolves `"X1"`, `extract_tracking_code` returns `"X1"` no matter
what the notes contain (structured source wins); and for every order
where no probed location yields a truthy value, the resolver returns
`none`, not an error. -/
theorem claim_C6_amended :
    (∀ rest : List JVal,
       customFieldsLoop ["tracking", "affiliate", "ref", "aff_code"]
         (.obj [("name", .str "Affiliate Code"), ("value", .str "X1")] :: rest)
         = .ok (some "X1")) ∧
    (∀ order : JVal, _extract_from_custom_fields order = .ok (some "X1") →
       extract_tracking_code order = .ok (some "X1")) ∧
    (∀ (order : JVal) (r1 : Option String) (sn : JVal) (r2 : Option String)
       (cm : JVal) (r3 r4 r5 : Option String) (ext : Option JVal),
       _extract_from_custom_fields order = .ok r1 → optTruthy r1 = false →
       pyGetD order "staff_notes" (.str "") = .ok sn →
       _extract_from_notes sn = .ok r2 → optTruthy r2 = false →
       pyGetD order "customer_message" (.str "") = .ok cm →
       _extract_from_notes cm = .ok r3 → optTruthy r3 = false →
       _extract_from_metadata order = .ok r4 → optTruthy r4 = false →
       _extract_from_form_fields order = .ok r5 → optTruthy r5 = false →
       pyGetOpt order "external_source" = .ok ext →
       optTruthy (_extract_from_url (ext.getD .null)) = false →
       extract_tracking_code order = .ok none) := by
  refine ⟨fun rest => rfl, ?_, ?_⟩
  · intro order h1
    unfold extract_tracking_code
    rw [h1, bindE_ok]
    rfl
  · intro order r1 sn r2 cm r3 r4 r5 ext h1 hr1 hsn h2 hr2 hcm h3 hr3 h4 hr4
      h5 hr5 hext hurl
    unfold extract_tracking_code
    rw [h1, bindE_ok]
    simp only [hr1, Bool.false_eq_true, if_false]
    rw [hsn, bindE_ok, h2, bindE_ok]
    simp only [hr2, Bool.false_eq_true, if_false]
    rw [hcm, bindE_ok, h3, bindE_ok]
    simp only [hr3, Bool.false_eq_true, if_false]
    rw [h4, bindE_ok]
    simp only [hr4, Bool.false_eq_true, if_false]
    rw [h5, bindE_ok]
    simp only [hr5, Bool.false_eq_true, if_false]
    rw [hext, bindE_ok]
    cases htr : truthy (ext.getD .null) with
    | false => simp [htr, pureE]
    | true =>
      simp only [htr, if_true]
      cases hu : _extract_from_url (ext.getD .null) with
      | none => simp [pureE]
      | some tc6 =>
        rw [hu] at hurl
        simp [hurl, pureE]

/-- Claim C6 witness: the order whose only matching custom field is
`Affiliate Code = X1` (staff note `ref=X2`) resolves `"X1"`; the empty
order resolves nothing. -/
theorem claim_C6_witness :
    extract_tracking_code orderAffiliateX1 = .ok (some "X1") ∧
    extract_tracking_code (.obj []) = .ok none := by
  constructor
  · exact (claim_C6_amended).2.1 orderAffiliateX1 (by decide)
  · exact (claim_C6_amended).2.2 (.obj []) none (.str "") none (.str "")
      none none none none
      rfl rfl rfl rfl rfl rfl rfl rfl rfl rfl rfl rfl rfl rfl

/-- Claim C9: the metadata probe returns a present key's value after
`str(...)` with no truthiness check — unlike the custom-field and
form-field probes, which skip falsy values.  When steps 1–3 yield
nothing and the highest-priority present metadata key among
`tracking_code, affiliate_code, ref, aff_code` is bound to JSON null,
the resolver returns the literal string `"None"` (Python's
stringification of `None`), which is truthy and therefore wins. -/
theorem claim_C9_metadata_null_stringified (order : JVal)
    (mfs : List (String × JVal)) (r1 : Option String) (sn : JVal)
    (r2 : Option String) (cm : JVal) (r3 : Option String)
    (h1 : _extract_from_custom_fields order = .ok r1)
    (hr1 : optTruthy r1 = false)
    (hsn : pyGetD order "staff_notes" (.str "") = .ok sn)
    (h2 : _extract_from_notes sn = .ok r2) (hr2 : optTruthy r2 = false)
    (hcm : pyGetD order "customer_message" (.str "") = .ok cm)
    (h3 : _extract_from_notes cm = .ok r3) (hr3 : optTruthy r3 = false)
    (hmeta : pyGetD order "metadata" (.obj []) = .ok (.obj mfs))
    (hnull : lookupField mfs "tracking_code" = some .null ∨
      (lookupField mfs "tracking_code" = none ∧
       lookupField mfs "affiliate_code" = some .null) ∨
      (lookupField mfs "tracking_code" = none ∧
       lookupField mfs "affiliate_code" = none ∧
       lookupField mfs "ref" = some .null) ∨
      (lookupField mfs "tracking_code" = none ∧
       lookupField mfs "affiliate_code" = none ∧
       lookupField mfs "ref" = none ∧
       lookupField mfs "aff_code" = some .null)) :
    extract_tracking_code order = .ok (some "None") := by
  have hstripNone : pyStrip (pyStr .null) = "None" := rfl
  have hm4 : _extract_from_metadata order = .ok (some "None") := by
    unfold _extract_from_metadata
    rw [hmeta, bindE_ok]
    show Except.ok (metadataLoop mfs
      ["tracking_code", "affiliate_code", "ref", "aff_code"]) =
      Except.ok (some "None")
    rcases hnull with h | ⟨ha, h⟩ | ⟨ha, hb, h⟩ | ⟨ha, hb, hc, h⟩ <;>
      simp_all [metadataLoop]
  unfold extract_tracking_code
  rw [h1, bindE_ok]
  simp only [hr1, Bool.false_eq_true, if_false]
  rw [hsn, bindE_ok, h2, bindE_ok]
  simp only [hr2, Bool.false_eq_true, if_false]
  rw [hcm, bindE_ok, h3, bindE_ok]
  simp only [hr3, Bool.false_eq_true, if_false]
  rw [hm4, bindE_ok]
  simp [optTruthy, pureE]

/-- Claim C9 witness: the order whose metadata binds `aff_code` to null
resolves the four-character string `"None"`. -/
theorem claim_C9_witness :
    extract_tracking_code orderMetaNull = .ok (some "None") :=
  claim_C9_metadata_null_stringified orderMetaNull [("aff_code", .null)]
    none (.str "") none (.str "") none
    rfl rfl rfl rfl rfl rfl rfl rfl rfl
    (Or.inr (Or.inr (Or.inr ⟨rfl, rfl, rfl, rfl⟩)))

/-- Claim C1 (code bug evidence): delivering the byte-identical
`store/order/statusUpdated` payload twice does NOT short-circuit the
second delivery.  `mark_processed` writes the literal status `"success"`,
while both deduplication checks compare against `"processed"`, so the
second delivery is routed again: it returns `"processed"` (not
`"duplicate"`/`"already_processed"`) and makes the same collaborator
calls again — `calls0` contains the `track_conversion` call, so business
logic runs twice. -/
theorem claim_C1_second_delivery_reprocessed :
    handle_bigcommerce_webhook env0 [store0] [] payload0 =
      .ok (.obj [("status", .str "processed"), ("result", trackedResult0)],
           [entry1], calls0) ∧
    handle_bigcommerce_webhook env0 [store0] [entry1] payload0 =
      .ok (.obj [("status", .str "processed"), ("result", trackedResult0)],
           [entry1, entry1], calls0) := by
  have hroute0 : route_webhook env0 (.str "store/order/statusUpdated")
      store0 payload0 = (.ok trackedResult0, calls0) := by rfl
  constructor
  · have h := endpoint_fresh env0 [store0] [] payload0 "stores/abc123" store0
      (.str "store/order/statusUpdated") (some (.str "evh1"))
      rfl (by decide) (by decide) rfl rfl rfl
      (log_webhook_fresh [] store0.id (.str "store/order/statusUpdated")
        payload0 (.str "evh1") rfl)
    rw [h, hroute0]
    rfl
  · have hdup : dupIndices [entry1] (payloadHash payload0) store0.id = [0] := by
      simp [dupIndices, dupIndicesAux, entry1, store0]
    have hstat : (([entry1] : List LogEntry).getD 0 default).status ≠
        "processed" := by
      simp [entry1, List.getD]
    have h := endpoint_fresh env0 [store0] [entry1] payload0 "stores/abc123"
      store0 (.str "store/order/statusUpdated") (some (.str "evh1"))
      rfl (by decide) (by decide) rfl rfl rfl
      (log_webhook_not_processed [entry1] store0.id
        (.str "store/order/statusUpdated") payload0 (.str "evh1") 0 hdup hstat)
    rw [h, hroute0]
    rfl

end Affilync
